import Mathlib

/-!
Shallow embedding of the filemetadata upload-validation service.

The service (src/index.js) exposes POST /api/fileanalyse: multer decodes a
single multipart file field named upfile into memory under a 1 MiB ceiling,
the handler checks the declared MIME type against a fixed allow-list, sniffs
the buffered content with the file-type package, cross-validates the sniffed
MIME type against the declared one by exact string equality, and answers with
a JSON metadata record or a 400-class error; a trailing error middleware maps
Multer errors to 400 and everything else to 500.  Two earlier storage
variants (src/unnamed/part_000) skip every check and echo metadata.

Bytes are modelled as Nat values below 256 in a List; the handler logic is
translated branch for branch from the source.
-/

namespace FileIntake

/-- The allow-list of declared MIME types, copied from the
`allowedMimeTypes` array in src/index.js (lines 105-117). -/
def allowedMimeTypes : List String :=
  [ "image/jpeg",
    "image/png",
    "image/gif",
    "text/plain",
    "application/pdf",
    "application/msword",
    "application/vnd.openxmlformats-officedocument.wordprocessingml.document",
    "application/vnd.ms-excel",
    "application/vnd.openxmlformats-officedocument.spreadsheetml.sheet",
    "audio/mpeg",
    "video/mp4" ]

/-- The file object multer attaches to the request (req.file) with memory
storage: original client file name, client-declared MIME type, measured
size in bytes, and the buffered content. -/
structure UploadedFile where
  originalname : String
  mimetype : String
  size : Nat
  buffer : List Nat
deriving Repr, DecidableEq

/-- Result record of fileTypeFromBuffer: detected extension and canonical
MIME type. -/
structure FileTypeResult where
  ext : String
  mime : String
deriving Repr, DecidableEq

/-- Check that the byte signature `sig` occurs in `buffer` at `offset`. -/
def checkSig (buffer : List Nat) (offset : Nat) (sig : List Nat) : Bool :=
  sig.isPrefixOf (buffer.drop offset)

/-- Model of the fileTypeFromBuffer function of the file-type npm package
(an external dependency of src/index.js, not part of this repository):
magic-byte signature detection over the buffered content, returning the
canonical MIME type of the first matching signature.  A representative
subset of the signature table is embedded (JPEG, PNG, GIF, PDF, MP3 ID3
tag, MP4 ftyp box).  The package detects binary-based formats only and has
no entry for text-based formats such as text/plain, as the repository
itself documents (comment in src/unnamed/part_001: the file-type package
is for detecting binary-based file formats, not text-based formats), so a
plain-text buffer matches no signature and yields no result. -/
def fileTypeFromBuffer (buffer : List Nat) : Option FileTypeResult :=
  if checkSig buffer 0 [0xFF, 0xD8, 0xFF] then some ⟨"jpg", "image/jpeg"⟩
  else if checkSig buffer 0 [0x89, 0x50, 0x4E, 0x47] then some ⟨"png", "image/png"⟩
  else if checkSig buffer 0 [0x47, 0x49, 0x46] then some ⟨"gif", "image/gif"⟩
  else if checkSig buffer 0 [0x25, 0x50, 0x44, 0x46] then some ⟨"pdf", "application/pdf"⟩
  else if checkSig buffer 0 [0x49, 0x44, 0x33] then some ⟨"mp3", "audio/mpeg"⟩
  else if checkSig buffer 4 [0x66, 0x74, 0x79, 0x70] then some ⟨"mp4", "video/mp4"⟩
  else none

/-- The metadata record emitted on success: res.json with name, declared
type and size (src/index.js line 137). -/
structure FileMetadata where
  name : String
  type : String
  size : Nat
deriving Repr, DecidableEq

/-- The response the service emits for one request.  `ok` is the HTTP 200
JSON metadata; `badRequest` is res.status(400).send(msg) from the route
handler; `badRequestJson` is the 400 JSON body the error middleware emits
for Multer errors; `internalError` is its 500 JSON body for every other
error (src/index.js lines 150-158). -/
inductive Response where
  | ok (body : FileMetadata)
  | badRequest (msg : String)
  | badRequestJson (error : String)
  | internalError (error : String)
deriving Repr, DecidableEq

/-- The POST /api/fileanalyse route handler body (src/index.js lines
99-145), given the sniffing function obtained from the dynamic import and
the decoded req.file.  Branch for branch from the source: allow-list gate
first, then sniffing; a sniff result with a falsy or different MIME string
is a mismatch; otherwise the metadata record is emitted; a missing sniff
result is the undetermined rejection. -/
def fileanalyseHandler (fileTypeFn : List Nat → Option FileTypeResult)
    (file : UploadedFile) : Response :=
  if !(allowedMimeTypes.contains file.mimetype) then
    .badRequest "Invalid file type"
  else
    match fileTypeFn file.buffer with
    | some result =>
        if result.mime = "" ∨ result.mime ≠ file.mimetype then
          .badRequest "File content does not match MIME type"
        else
          .ok ⟨file.originalname, file.mimetype, file.size⟩
    | none =>
        .badRequest "Unable to determine the file type from the content"

/-- The upfile part of a decoded multipart body before storage: client file
name, declared MIME type and raw content bytes. -/
structure RawFilePart where
  originalname : String
  mimetype : String
  content : List Nat
deriving Repr, DecidableEq

/-- The configured byte ceiling: limits.fileSize of the multer instance in
src/index.js (1 * 1024 * 1024). -/
def fileSizeLimit : Nat := 1 * 1024 * 1024

/-- Multer error raised when the streamed file exceeds limits.fileSize. -/
inductive MulterError where
  | limitFileSize
deriving Repr, DecidableEq

/-- The message carried by a Multer error (err.message, forwarded by the
error middleware). -/
def MulterError.message : MulterError → String
  | .limitFileSize => "File too large"

/-- Multer memory storage buffers the whole part and sets size to the byte
length of the buffer: the receiver measures size, it is not taken from the
client. -/
def memoryStorageFile (part : RawFilePart) : UploadedFile :=
  { originalname := part.originalname
    mimetype := part.mimetype
    size := part.content.length
    buffer := part.content }

/-- The upload.single middleware of src/index.js: no upfile part leaves
req.file undefined; a part whose content exceeds limits.fileSize raises
the LIMIT_FILE_SIZE Multer error (busboy admits exactly fileSize bytes and
flags only an attempt to exceed them); otherwise req.file is the memory
stored file. -/
def uploadSingle (upfile : Option RawFilePart) :
    Except MulterError (Option UploadedFile) :=
  match upfile with
  | none => .ok none
  | some part =>
      if part.content.length > fileSizeLimit then .error .limitFileSize
      else .ok (some (memoryStorageFile part))

/-- A JavaScript runtime error escaping the route handler. -/
inductive JsError where
  | typeError (msg : String)
deriving Repr, DecidableEq

/-- The route handler as entered by the framework: destructuring req.file
when it is undefined (no upfile field was sent) throws a TypeError before
any validation runs (src/index.js line 102); otherwise the handler body
runs. -/
def fileanalyseRoute (fileTypeFn : List Nat → Option FileTypeResult)
    (file : Option UploadedFile) : Except JsError Response :=
  match file with
  | none => .error (.typeError "Cannot destructure property of undefined")
  | some f => .ok (fileanalyseHandler fileTypeFn f)

/-- Outcome of one request at the framework boundary.  `response r` means
the service emitted `r`.  `thrown e` means the async route handler threw
`e` out of its function body; what the framework then does is not decided
here, because it depends on the Express major version, which the
repository does not pin: Express 5 forwards a rejected handler promise to
the error middleware, whose non-Multer branch answers 500 (src/index.js
lines 150-158), while Express 4 does not forward it and no response is
emitted at all. -/
inductive PipelineOutcome where
  | response (r : Response)
  | thrown (e : JsError)
deriving Repr, DecidableEq

/-- The whole POST /api/fileanalyse pipeline for one request, given the
upfile part of the multipart body (none when the field is absent).  A
Multer error is classified by the error middleware as 400 with the error
message (src/index.js lines 150-158); an error thrown by the route handler
is recorded as `thrown` (its disposal is version-dependent, see
PipelineOutcome); otherwise the route handler response is emitted. -/
def handleRequest (upfile : Option RawFilePart) : PipelineOutcome :=
  match uploadSingle upfile with
  | .error e => .response (.badRequestJson e.message)
  | .ok fileOpt =>
      match fileanalyseRoute fileTypeFromBuffer fileOpt with
      | .ok resp => .response resp
      | .error e => .thrown e

/-- The POST /api/fileanalyse handler of the GridFS storage variant
(src/unnamed/part_000, first program, lines 54-62): no allow-list check,
no sniffing, no size limit configured; it echoes name, declared type and
stored size for every parsed upload. -/
def gridFsHandleRequest (part : RawFilePart) : Response :=
  .ok ⟨part.originalname, part.mimetype, part.content.length⟩

/-- The POST /api/fileanalyse handler of the diskStorage variant
(src/unnamed/part_000, second program, lines 123-131): identical handler
body, multer configured with disk storage and no limits. -/
def diskHandleRequest (part : RawFilePart) : Response :=
  .ok ⟨part.originalname, part.mimetype, part.content.length⟩

/-- A small JPEG upload: declared image/jpeg, content beginning with the
JPEG SOI marker FF D8 FF. -/
def jpegSample : RawFilePart :=
  { originalname := "photo.jpg"
    mimetype := "image/jpeg"
    content := [0xFF, 0xD8, 0xFF, 0xE0, 0x00, 0x10, 0x4A, 0x46, 0x49, 0x46] }

/-- An upload declared text/plain whose content is ordinary ASCII prose
(the bytes of a hello-world line). -/
def proseSample : RawFilePart :=
  { originalname := "notes.txt"
    mimetype := "text/plain"
    content := [72, 101, 108, 108, 111, 44, 32, 119, 111, 114, 108, 100, 33, 10] }

/-- An upload declared with a MIME type outside the allow-list. -/
def exeSample : RawFilePart :=
  { originalname := "setup.exe"
    mimetype := "application/x-msdownload"
    content := [0x4D, 0x5A] }

/-- An upload declared image/png whose content is really a JPEG. -/
def fakePngSample : RawFilePart :=
  { originalname := "fake.png"
    mimetype := "image/png"
    content := [0xFF, 0xD8, 0xFF, 0xE0] }

/-- A JPEG content buffer of exactly fileSizeLimit bytes. -/
def exactLimitContent : List Nat :=
  [0xFF, 0xD8, 0xFF] ++ List.replicate (fileSizeLimit - 3) 0

/-- A JPEG content buffer of fileSizeLimit + 1 bytes. -/
def overLimitContent : List Nat :=
  [0xFF, 0xD8, 0xFF] ++ List.replicate (fileSizeLimit - 2) 0

/-- An upload whose content size is exactly the configured ceiling and whose
content sniffs as the declared JPEG type. -/
def exactLimitSample : RawFilePart :=
  { originalname := "big.jpg"
    mimetype := "image/jpeg"
    content := exactLimitContent }

/-- An upload whose content size is one byte over the configured ceiling. -/
def overLimitSample : RawFilePart :=
  { originalname := "toobig.jpg"
    mimetype := "image/jpeg"
    content := overLimitContent }

/-! ## Helper lemmas about the handler and the pipeline -/

/-- A MIME type on the allow-list is not the empty string. -/
theorem contains_ne_empty {s : String}
    (h : allowedMimeTypes.contains s = true) : s ≠ "" := by
  intro e
  subst e
  exact absurd h (by decide)

/-- Unfolding equation for the handler on a present file. -/
theorem fileanalyseHandler_eq (fileTypeFn : List Nat → Option FileTypeResult)
    (f : UploadedFile) :
    fileanalyseHandler fileTypeFn f =
      if !(allowedMimeTypes.contains f.mimetype) then
        .badRequest "Invalid file type"
      else
        match fileTypeFn f.buffer with
        | some result =>
            if result.mime = "" ∨ result.mime ≠ f.mimetype then
              .badRequest "File content does not match MIME type"
            else
              .ok ⟨f.originalname, f.mimetype, f.size⟩
        | none =>
            .badRequest "Unable to determine the file type from the content" := rfl

/-- Gate branch: a declared type off the allow-list is rejected as an
invalid file type, whatever the sniffing function is. -/
theorem handler_not_allowed (fileTypeFn : List Nat → Option FileTypeResult)
    (f : UploadedFile) (h : allowedMimeTypes.contains f.mimetype = false) :
    fileanalyseHandler fileTypeFn f = .badRequest "Invalid file type" := by
  rw [fileanalyseHandler_eq, h]
  rfl

/-- Sniffer-undetermined branch of the handler. -/
theorem handler_undetermined (fileTypeFn : List Nat → Option FileTypeResult)
    (f : UploadedFile) (h : allowedMimeTypes.contains f.mimetype = true)
    (hs : fileTypeFn f.buffer = none) :
    fileanalyseHandler fileTypeFn f =
      .badRequest "Unable to determine the file type from the content" := by
  rw [fileanalyseHandler_eq, h, hs]
  rfl

/-- Mismatch branch of the handler. -/
theorem handler_mismatch (fileTypeFn : List Nat → Option FileTypeResult)
    (f : UploadedFile) (r : FileTypeResult)
    (h : allowedMimeTypes.contains f.mimetype = true)
    (hs : fileTypeFn f.buffer = some r) (hne : r.mime ≠ f.mimetype) :
    fileanalyseHandler fileTypeFn f =
      .badRequest "File content does not match MIME type" := by
  rw [fileanalyseHandler_eq, h, hs]
  show (if r.mime = "" ∨ r.mime ≠ f.mimetype then _ else _) = _
  rw [if_pos (Or.inr hne)]

/-- Success branch of the handler. -/
theorem handler_ok (fileTypeFn : List Nat → Option FileTypeResult)
    (f : UploadedFile) (r : FileTypeResult)
    (h : allowedMimeTypes.contains f.mimetype = true)
    (hs : fileTypeFn f.buffer = some r) (heq : r.mime = f.mimetype) :
    fileanalyseHandler fileTypeFn f =
      .ok ⟨f.originalname, f.mimetype, f.size⟩ := by
  have hne : ¬(r.mime = "") := by
    rw [heq]
    exact contains_ne_empty h
  rw [fileanalyseHandler_eq, h, hs]
  show (if r.mime = "" ∨ r.mime ≠ f.mimetype then _ else _) = _
  rw [if_neg (not_or.mpr ⟨hne, not_not_intro heq⟩)]

/-- Inversion: the handler emits the 200 metadata only when the declared
type passed the gate and the sniffed type equals it exactly. -/
theorem handler_ok_inv (fileTypeFn : List Nat → Option FileTypeResult)
    (f : UploadedFile) (m : FileMetadata)
    (h : fileanalyseHandler fileTypeFn f = .ok m) :
    allowedMimeTypes.contains f.mimetype = true
    ∧ ∃ r, fileTypeFn f.buffer = some r ∧ r.mime = f.mimetype
        ∧ m = ⟨f.originalname, f.mimetype, f.size⟩ := by
  cases hc : allowedMimeTypes.contains f.mimetype with
  | false =>
      rw [handler_not_allowed fileTypeFn f hc] at h
      exact Response.noConfusion h
  | true =>
      cases hs : fileTypeFn f.buffer with
      | none =>
          rw [handler_undetermined fileTypeFn f hc hs] at h
          exact Response.noConfusion h
      | some r =>
          by_cases hmm : r.mime = f.mimetype
          · rw [handler_ok fileTypeFn f r hc hs hmm] at h
            exact ⟨rfl, r, rfl, hmm, (Response.ok.inj h).symm⟩
          · rw [handler_mismatch fileTypeFn f r hc hs hmm] at h
            exact Response.noConfusion h

/-- Unfolding equation for the receiver on a present upfile part. -/
theorem uploadSingle_some (p : RawFilePart) :
    uploadSingle (some p) =
      if p.content.length > fileSizeLimit then .error .limitFileSize
      else .ok (some (memoryStorageFile p)) := rfl

/-- Within the size ceiling, the pipeline emits exactly the route handler
response for the memory-stored file. -/
theorem handleRequest_some_le (p : RawFilePart)
    (hle : p.content.length ≤ fileSizeLimit) :
    handleRequest (some p) =
      .response (fileanalyseHandler fileTypeFromBuffer (memoryStorageFile p)) := by
  unfold handleRequest
  rw [uploadSingle_some, if_neg (by omega)]
  rfl

/-- Over the size ceiling, the Multer error reaches the error middleware. -/
theorem handleRequest_some_gt (p : RawFilePart)
    (hgt : p.content.length > fileSizeLimit) :
    handleRequest (some p) = .response (.badRequestJson "File too large") := by
  unfold handleRequest
  rw [uploadSingle_some, if_pos hgt]
  rfl

/-- With no upfile field the route handler throws the destructuring
TypeError; the pipeline records the thrown error. -/
theorem handleRequest_none :
    handleRequest none =
      .thrown (.typeError "Cannot destructure property of undefined") := rfl

/-- Inversion: a 200 response comes from a present upfile part within the
size ceiling whose handler run accepted. -/
theorem handleRequest_ok_inv (req : Option RawFilePart) (m : FileMetadata)
    (h : handleRequest req = .response (.ok m)) :
    ∃ p, req = some p ∧ p.content.length ≤ fileSizeLimit
      ∧ fileanalyseHandler fileTypeFromBuffer (memoryStorageFile p) = .ok m := by
  cases req with
  | none =>
      rw [handleRequest_none] at h
      exact PipelineOutcome.noConfusion h
  | some p =>
      by_cases hgt : p.content.length > fileSizeLimit
      · rw [handleRequest_some_gt p hgt] at h
        exact Response.noConfusion (PipelineOutcome.response.inj h)
      · push_neg at hgt
        exact ⟨p, rfl, hgt,
          PipelineOutcome.response.inj ((handleRequest_some_le p hgt).symm.trans h)⟩

/-! ## Claim theorems -/

/-- C1: an Accepted outcome (the 200 JSON metadata response) of the POST
/api/fileanalyse pipeline is reachable only if the declared MIME type is in
the allow-list, the content sniffer produced a result, and the detected
MIME type is string-equal to the declared type; consequently, for every
accepted outcome the emitted type exactly equals the declared and sniffed
type. -/
theorem accepted_only_if_allowlisted_and_sniff_matches
    (req : Option RawFilePart) (m : FileMetadata)
    (h : handleRequest req = .response (.ok m)) :
    ∃ p, req = some p
      ∧ allowedMimeTypes.contains p.mimetype = true
      ∧ ∃ r, fileTypeFromBuffer p.content = some r
          ∧ r.mime = p.mimetype ∧ m.type = p.mimetype := by
  obtain ⟨p, hreq, hle, hh⟩ := handleRequest_ok_inv req m h
  obtain ⟨hc, r, hs, hmime, hm⟩ := handler_ok_inv _ _ _ hh
  exact ⟨p, hreq, hc, r, hs, hmime, by rw [hm]; rfl⟩

/-- Witness for C1: a JPEG upload declared image/jpeg is accepted and
satisfies the acceptance conditions. -/
theorem accepted_only_if_allowlisted_and_sniff_matches_witness :
    ∃ p, (some jpegSample) = some p
      ∧ allowedMimeTypes.contains p.mimetype = true
      ∧ ∃ r, fileTypeFromBuffer p.content = some r
          ∧ r.mime = p.mimetype
          ∧ (FileMetadata.mk "photo.jpg" "image/jpeg" 10).type = p.mimetype :=
  accepted_only_if_allowlisted_and_sniff_matches (some jpegSample)
    ⟨"photo.jpg", "image/jpeg", 10⟩ rfl

/-- C2 evidence: the content sniffer used by the code (the file-type
package) has no plain-text fallback, so an upload declared text/plain whose
content is ordinary ASCII prose sniffs to nothing and the pipeline rejects
it with the undetermined-type message instead of accepting it. -/
theorem text_plain_prose_rejected_undetermined :
    fileTypeFromBuffer proseSample.content = none
    ∧ handleRequest (some proseSample) =
        .response (.badRequest "Unable to determine the file type from the content") :=
  ⟨rfl, rfl⟩

/-- C3: an upload whose declared MIME type is outside the allow-list is
rejected with the Invalid file type message for every sniffing function
(so the sniffer result is never consulted) and for every content buffer;
through the whole pipeline the same rejection is emitted whenever the
body is within the size ceiling. -/
theorem invalid_declared_type_rejected_before_sniffing
    (fileTypeFn : List Nat → Option FileTypeResult) (p : RawFilePart)
    (h : allowedMimeTypes.contains p.mimetype = false) :
    fileanalyseHandler fileTypeFn (memoryStorageFile p) =
      .badRequest "Invalid file type"
    ∧ (p.content.length ≤ fileSizeLimit →
        handleRequest (some p) = .response (.badRequest "Invalid file type")) :=
  ⟨handler_not_allowed fileTypeFn (memoryStorageFile p) h,
   fun hle => (handleRequest_some_le p hle).trans
     (congrArg PipelineOutcome.response
       (handler_not_allowed fileTypeFromBuffer (memoryStorageFile p) h))⟩

/-- Witness for C3: an upload declared application/x-msdownload is rejected
as an invalid file type by the pipeline. -/
theorem invalid_declared_type_rejected_before_sniffing_witness :
    handleRequest (some exeSample) = .response (.badRequest "Invalid file type") :=
  (invalid_declared_type_rejected_before_sniffing fileTypeFromBuffer
    exeSample (by decide)).2 (by decide)

/-- C4: past the allow-list gate, the cross-validation maps an absent sniff
result to the undetermined rejection, a detected MIME string differing
(case-sensitively) from the declared type to the mismatch rejection, and a
detected MIME string equal to the declared type to the 200 metadata, with
no other normalization. -/
theorem cross_validator_mapping
    (fileTypeFn : List Nat → Option FileTypeResult) (f : UploadedFile)
    (h : allowedMimeTypes.contains f.mimetype = true) :
    (fileTypeFn f.buffer = none →
        fileanalyseHandler fileTypeFn f =
          .badRequest "Unable to determine the file type from the content")
    ∧ (∀ r, fileTypeFn f.buffer = some r → r.mime ≠ f.mimetype →
        fileanalyseHandler fileTypeFn f =
          .badRequest "File content does not match MIME type")
    ∧ (∀ r, fileTypeFn f.buffer = some r → r.mime = f.mimetype →
        fileanalyseHandler fileTypeFn f =
          .ok ⟨f.originalname, f.mimetype, f.size⟩) :=
  ⟨fun hs => handler_undetermined fileTypeFn f h hs,
   fun r hs hne => handler_mismatch fileTypeFn f r h hs hne,
   fun r hs heq => handler_ok fileTypeFn f r h hs heq⟩

/-- Witness for C4: an upload declared image/png whose content is a JPEG is
rejected with the mismatch message. -/
theorem cross_validator_mapping_witness :
    fileanalyseHandler fileTypeFromBuffer (memoryStorageFile fakePngSample) =
      .badRequest "File content does not match MIME type" :=
  (cross_validator_mapping fileTypeFromBuffer (memoryStorageFile fakePngSample)
    (by decide)).2.1 ⟨"jpg", "image/jpeg"⟩ rfl (by decide)

/-- C5: an upload whose content size is exactly the configured ceiling and
passes the other checks is accepted with the 200 metadata, while an upload
one byte over the ceiling is rejected through the Multer error branch of
the error middleware with a 400 File too large body. -/
theorem size_ceiling_boundary (p q : RawFilePart)
    (hp : p.content.length = fileSizeLimit)
    (hpt : allowedMimeTypes.contains p.mimetype = true)
    (r : FileTypeResult)
    (hr : fileTypeFromBuffer p.content = some r)
    (hrm : r.mime = p.mimetype)
    (hq : q.content.length = fileSizeLimit + 1) :
    handleRequest (some p) =
      .response (.ok ⟨p.originalname, p.mimetype, p.content.length⟩)
    ∧ handleRequest (some q) = .response (.badRequestJson "File too large") := by
  constructor
  · rw [handleRequest_some_le p (le_of_eq hp)]
    exact congrArg PipelineOutcome.response
      (handler_ok fileTypeFromBuffer (memoryStorageFile p) r hpt hr hrm)
  · exact handleRequest_some_gt q (by omega)

/-- Witness for C5: a JPEG of exactly 1048576 bytes is accepted and a JPEG
of 1048577 bytes is rejected as too large. -/
theorem size_ceiling_boundary_witness :
    handleRequest (some exactLimitSample) =
      .response (.ok ⟨exactLimitSample.originalname, exactLimitSample.mimetype,
        exactLimitSample.content.length⟩)
    ∧ handleRequest (some overLimitSample) =
        .response (.badRequestJson "File too large") :=
  size_ceiling_boundary exactLimitSample overLimitSample
    (by
      show exactLimitContent.length = fileSizeLimit
      rw [exactLimitContent, List.length_append, List.length_replicate]
      decide)
    (by decide) ⟨"jpg", "image/jpeg"⟩ rfl rfl
    (by
      show overLimitContent.length = fileSizeLimit + 1
      rw [overLimitContent, List.length_append, List.length_replicate]
      decide)

/-- C6 evidence: a request with no upfile field does not produce a typed
MissingFile rejection; the route handler destructures the absent req.file
and throws a TypeError, so the request ends in a thrown unclassified error
(which, depending on the Express version, becomes the 500 branch of the
error middleware or no response at all) rather than any 400 rejection. -/
theorem missing_file_unclassified_error :
    fileanalyseRoute fileTypeFromBuffer none =
      .error (.typeError "Cannot destructure property of undefined")
    ∧ handleRequest none =
        .thrown (.typeError "Cannot destructure property of undefined") :=
  ⟨rfl, rfl⟩

/-- C7: the allow-list is exactly the eleven canonical MIME strings of the
source, and the handler rejects with the Invalid file type message exactly
when the declared type is not on the list, for every sniffing function. -/
theorem allow_list_exact :
    allowedMimeTypes =
      [ "image/jpeg",
        "image/png",
        "image/gif",
        "text/plain",
        "application/pdf",
        "application/msword",
        "application/vnd.openxmlformats-officedocument.wordprocessingml.document",
        "application/vnd.ms-excel",
        "application/vnd.openxmlformats-officedocument.spreadsheetml.sheet",
        "audio/mpeg",
        "video/mp4" ]
    ∧ ∀ (fileTypeFn : List Nat → Option FileTypeResult) (f : UploadedFile),
        (fileanalyseHandler fileTypeFn f = .badRequest "Invalid file type"
          ↔ allowedMimeTypes.contains f.mimetype = false) := by
  refine ⟨rfl, fun fileTypeFn f => ⟨fun h => ?_, handler_not_allowed fileTypeFn f⟩⟩
  cases hc : allowedMimeTypes.contains f.mimetype with
  | false => rfl
  | true =>
      exfalso
      cases hs : fileTypeFn f.buffer with
      | none =>
          rw [handler_undetermined fileTypeFn f hc hs] at h
          exact absurd (Response.badRequest.inj h) (by decide)
      | some r =>
          by_cases hmm : r.mime = f.mimetype
          · rw [handler_ok fileTypeFn f r hc hs hmm] at h
            exact Response.noConfusion h
          · rw [handler_mismatch fileTypeFn f r hc hs hmm] at h
            exact absurd (Response.badRequest.inj h) (by decide)

/-- Witness for C7: the handler rejects a disallowed declared type. -/
theorem allow_list_exact_witness :
    fileanalyseHandler fileTypeFromBuffer (memoryStorageFile exeSample) =
      .badRequest "Invalid file type" :=
  (allow_list_exact.2 fileTypeFromBuffer (memoryStorageFile exeSample)).mpr
    (by decide)

/-- Scope of the fall-through question: every request that carries an
upfile part gets exactly one response from the pipeline (the 200 metadata
record with the client name, declared type and measured size, or a 400
message from the handler, or the 400 Multer error body), whatever the
framework does with thrown handler errors; only the missing-upfile path
throws, so whether that path emits anything depends on the unpinned
Express version (see PipelineOutcome). -/
theorem upfile_present_exactly_one_response (p : RawFilePart) :
    (handleRequest (some p) =
        .response (.ok ⟨p.originalname, p.mimetype, p.content.length⟩))
    ∨ (∃ msg, handleRequest (some p) = .response (.badRequest msg))
    ∨ (handleRequest (some p) = .response (.badRequestJson "File too large")) := by
  by_cases hgt : p.content.length > fileSizeLimit
  · exact Or.inr (Or.inr (handleRequest_some_gt p hgt))
  · push_neg at hgt
    rw [handleRequest_some_le p hgt]
    cases hc : allowedMimeTypes.contains p.mimetype with
    | false =>
        exact Or.inr (Or.inl ⟨_,
          congrArg PipelineOutcome.response (handler_not_allowed _ _ hc)⟩)
    | true =>
        cases hs : fileTypeFromBuffer p.content with
        | none =>
            exact Or.inr (Or.inl ⟨_,
              congrArg PipelineOutcome.response (handler_undetermined _ _ hc hs)⟩)
        | some r =>
            by_cases hmm : r.mime = (memoryStorageFile p).mimetype
            · exact Or.inl
                (congrArg PipelineOutcome.response (handler_ok _ _ r hc hs hmm))
            · exact Or.inr (Or.inl ⟨_,
                congrArg PipelineOutcome.response (handler_mismatch _ _ r hc hs hmm)⟩)

/-- C9: the size multer stores on req.file is the byte length of the
buffered content as measured by the receiver, and the size in an accepted
response is exactly that measured size. -/
theorem size_equals_buffer_length (p : RawFilePart) :
    (memoryStorageFile p).size = (memoryStorageFile p).buffer.length
    ∧ ∀ m, handleRequest (some p) = .response (.ok m) →
        m.size = (memoryStorageFile p).size := by
  refine ⟨rfl, fun m h => ?_⟩
  obtain ⟨q, hq, hle, hh⟩ := handleRequest_ok_inv (some p) m h
  injection hq with hpq
  subst hpq
  obtain ⟨_, r, _, _, hm⟩ := handler_ok_inv _ _ _ hh
  rw [hm]

/-- Witness for C9: the accepted JPEG response carries the measured size. -/
theorem size_equals_buffer_length_witness :
    (FileMetadata.mk "photo.jpg" "image/jpeg" 10).size =
      (memoryStorageFile jpegSample).size :=
  (size_equals_buffer_length jpegSample).2 ⟨"photo.jpg", "image/jpeg", 10⟩ rfl

/-- C10: in the GridFS-backed and disk-backed variants the handler answers
the 200 metadata for every parsed upload, whatever the declared type and
content are, with no allow-list check, no sniffing and no size ceiling. -/
theorem variants_accept_unconditionally (part : RawFilePart) :
    gridFsHandleRequest part =
      .ok ⟨part.originalname, part.mimetype, part.content.length⟩
    ∧ diskHandleRequest part =
        .ok ⟨part.originalname, part.mimetype, part.content.length⟩ :=
  ⟨rfl, rfl⟩

end FileIntake
